import Mathlib

/-!
Shallow embedding of `src/components/VideoConverter.tsx` from the
video-to-gif-converter repository.

The component is a React function component whose observable behaviour is
captured by six pieces of state (`ffmpegLoaded`, `videoFile`, `gifUrl`,
`isConverting`, `progress`, `message`), four event handlers
(`loadFfmpeg`, `handleFileChange`, `convertToGif`, plus the `log` /
`progress` engine listeners), and the conditional rendering in its JSX.

Engine calls (`ffmpeg.writeFile`, `ffmpeg.exec`, `ffmpeg.readFile`,
`URL.createObjectURL`, `URL.revokeObjectURL`) are recorded in a trace.
Whether an engine step throws is an environment choice, modelled by an
outcome parameter passed to the handler; the handler then follows the
source's try/catch/finally structure for that outcome.

Object URLs are modelled by the `Blob` they reference: the component never
inspects the URL string, it only stores it and passes it to the JSX.
File bytes are modelled as `List Nat`.
-/

/-- A selected file: its name and its bytes (`fetchFile` reads the bytes). -/
structure JsFile where
  name : String
  bytes : List Nat
deriving Repr, DecidableEq

/-- A JS `Blob`: the byte parts (already concatenated) and the MIME type. -/
structure Blob where
  data : List Nat
  type : String
deriving Repr, DecidableEq

/-- The component's React state, one field per `useState` hook.
`progress` is an `Int` because it receives `Math.round(p * 100)`. -/
structure ComponentState where
  ffmpegLoaded : Bool
  videoFile : Option JsFile
  gifUrl : Option Blob
  isConverting : Bool
  progress : Int
  message : Option String
deriving Repr, DecidableEq

/-- The initial state set by the `useState` initialisers. -/
def initialState : ComponentState :=
  { ffmpegLoaded := false, videoFile := none, gifUrl := none,
    isConverting := false, progress := 0, message := none }

/-- One call into the engine or the URL API, as recorded in a trace. -/
inductive EngineCall where
  | writeFile (name : String) (data : List Nat)
  | exec (args : List String)
  | readFile (name : String)
  | createObjectURL (b : Blob)
  | revokeObjectURL (b : Blob)
deriving Repr, DecidableEq

/-- JS `String.prototype.startsWith` on character lists: `listStartsWith s p`
is `true` iff `p` is an initial run of `s`. -/
def listStartsWith : List Char → List Char → Bool
  | _, [] => true
  | [], _ :: _ => false
  | c :: cs, p :: ps => if c = p then listStartsWith cs ps else false

/-- JS `s.startsWith(p)`. -/
def strStartsWith (s p : String) : Bool :=
  listStartsWith s.data p.data

/-- JS `String.prototype.split(".")` on character lists: splits at every
dot, keeping empty segments, and returns `[s]` when there is no dot
(never the empty list). -/
def splitDot : List Char → List (List Char)
  | [] => [[]]
  | c :: cs =>
    match splitDot cs with
    | [] => [[]]
    | seg :: rest => if c = '.' then [] :: seg :: rest else (c :: seg) :: rest

/-- JS `name.split(".").pop()`: the last `"."`-separated segment. -/
def jsSplitPop (name : String) : String :=
  String.mk (splitDot name.data).getLast!

/-- `inputFileName` as computed in `convertToGif`:
`"input." + videoFile.name.split(".").pop()`. -/
def inputFileNameOf (name : String) : String :=
  "input." ++ jsSplitPop name

/-- JS `Math.round` on rationals: round half toward positive infinity. -/
def jsRound (q : ℚ) : Int :=
  ⌊q + 1 / 2⌋

/-- Outcome of `ffmpeg.load` (the bootstrap `try` block of `loadFfmpeg`):
either it resolves, or it throws with an error whose string
interpolation is `err`. -/
inductive LoadOutcome where
  | success
  | failure (err : String)
deriving Repr, DecidableEq

/-- Outcome of the `try` block of `convertToGif`: the first engine step that
throws (with its interpolated error text), or success with the bytes
`ffmpeg.readFile("output.gif")` returns. -/
inductive ConvertOutcome where
  | writeThrows (err : String)
  | execThrows (err : String)
  | readThrows (err : String)
  | success (output : List Nat)
deriving Repr, DecidableEq

/-- The interpolated error text of a throwing outcome, if any. -/
def ConvertOutcome.errDesc? : ConvertOutcome → Option String
  | .writeThrows e => some e
  | .execThrows e => some e
  | .readThrows e => some e
  | .success _ => none

/-- `loadFfmpeg`: sets the loading message, registers the listeners, then
runs `ffmpeg.load` inside try/catch. On success `ffmpegLoaded := true`
and a success message; on failure the message becomes
`"Error loading FFMPEG: " ++ err` and `ffmpegLoaded := false`. -/
def loadFfmpeg (s : ComponentState) (oc : LoadOutcome) : ComponentState :=
  let s1 := { s with
    message := some "Loading FFMPEG.WASM (ffmpeg.wasm)... This may take a moment." }
  match oc with
  | .success =>
      { s1 with ffmpegLoaded := true,
                message := some "FFMPEG loaded successfully!" }
  | .failure err =>
      { s1 with message := some ("Error loading FFMPEG: " ++ err),
                ffmpegLoaded := false }

/-- `handleFileChange`: if the picker produced a file, store it, reset the
previous GIF, set the selected message, and reset progress; otherwise
do nothing. -/
def handleFileChange (s : ComponentState) (file? : Option JsFile) :
    ComponentState :=
  match file? with
  | some file =>
      { s with videoFile := some file, gifUrl := none,
               message := some "Video file selected.", progress := 0 }
  | none => s

/-- The `"log"` listener: `setMessage(logMessage)`. -/
def handleLog (s : ComponentState) (logMessage : String) : ComponentState :=
  { s with message := some logMessage }

/-- The `"progress"` listener: `setProgress(Math.round(p * 100))`. -/
def handleProgress (s : ComponentState) (p : ℚ) : ComponentState :=
  { s with progress := jsRound (p * 100) }

/-- `convertToGif`, translated statement by statement. The two guards
return early after only a `setMessage`. Otherwise the pre-`try` state
updates run, then the `try` block proceeds as far as the outcome
allows: `writeFile`, `exec` with the fixed argument list, `readFile`,
`URL.createObjectURL` on the `image/gif` blob. A throw at any step
lands in the catch (`setMessage` to the conversion error text,
`setGifUrl(null)`); the `finally` always sets `isConverting := false`
and `progress := 100`. Each `setMessage` overwrites the previous one,
so only the last one before return is visible in the result state.
Returns the final state and the trace of engine calls made. -/
def convertToGif (s0 : ComponentState) (oc : ConvertOutcome) :
    ComponentState × List EngineCall :=
  if s0.ffmpegLoaded = false then
    ({ s0 with message := some "FFMPEG is not loaded yet. Please wait." }, [])
  else
    match s0.videoFile with
    | none =>
        ({ s0 with message := some "Please select a video file first." }, [])
    | some videoFile =>
      let s1 := { s0 with isConverting := true, gifUrl := none,
                          progress := 0,
                          message := some "Starting conversion..." }
      let inputFileName := inputFileNameOf videoFile.name
      let outputFileName := "output.gif"
      let execArgs : List String :=
        ["-i", inputFileName, "-vf", "fps=15,scale=480:-1:flags=lanczos",
         outputFileName]
      let result :=
        match oc with
        | .writeThrows err =>
            ({ s1 with message := some ("Conversion error: " ++ err),
                       gifUrl := none },
             [EngineCall.writeFile inputFileName videoFile.bytes])
        | .execThrows err =>
            ({ s1 with message := some ("Conversion error: " ++ err),
                       gifUrl := none },
             [EngineCall.writeFile inputFileName videoFile.bytes,
              EngineCall.exec execArgs])
        | .readThrows err =>
            ({ s1 with message := some ("Conversion error: " ++ err),
                       gifUrl := none },
             [EngineCall.writeFile inputFileName videoFile.bytes,
              EngineCall.exec execArgs,
              EngineCall.readFile outputFileName])
        | .success output =>
            let blob : Blob := { data := output, type := "image/gif" }
            ({ s1 with gifUrl := some blob,
                       message := some "GIF generated successfully!" },
             [EngineCall.writeFile inputFileName videoFile.bytes,
              EngineCall.exec execArgs,
              EngineCall.readFile outputFileName,
              EngineCall.createObjectURL blob])
      ({ result.1 with isConverting := false, progress := 100 }, result.2)

/-- The `variant` expression of the status `Alert`:
`message?.startsWith("Error") ? "destructive" : "default"`. -/
def alertVariant (m : String) : String :=
  if strStartsWith m "Error" then "destructive" else "default"

/-- The status banner of the JSX: rendered (with its variant) exactly when
`!ffmpegLoaded && message`. -/
def statusBanner (s : ComponentState) : Option String :=
  match s.ffmpegLoaded, s.message with
  | false, some m => some (alertVariant m)
  | _, _ => none

/-- Whether the "Convert to GIF" button is rendered:
`ffmpegLoaded && (videoFile && !isConverting)` in the JSX. -/
def convertButtonRendered (s : ComponentState) : Bool :=
  s.ffmpegLoaded && s.videoFile.isSome && !s.isConverting

/-- The button's `disabled` attribute:
`!videoFile || isConverting || !ffmpegLoaded`. -/
def convertButtonDisabled (s : ComponentState) : Bool :=
  !s.videoFile.isSome || s.isConverting || !s.ffmpegLoaded

/-- The events a session can deliver to the component: the mount effect
(which invokes `loadFfmpeg` with the bootstrap's outcome), a file-picker
change, a click of the convert button, and the engine's asynchronous
log and progress notifications. -/
inductive UiEvent where
  | mount (oc : LoadOutcome)
  | fileChange (file? : Option JsFile)
  | convertClick (oc : ConvertOutcome)
  | logNotification (m : String)
  | progressNotification (p : ℚ)

/-- How many times handling one event invokes `loadFfmpeg`: only the mount
effect does, and it does so once (`useEffect(..., [])`). -/
def loadFfmpegCalls : UiEvent → Nat
  | .mount _ => 1
  | _ => 0

/-- Whether an event is the mount effect. -/
def UiEvent.isMount : UiEvent → Bool
  | .mount _ => true
  | _ => false

/-- Dispatch one event to its handler, returning the new state and the
engine calls made while handling it. -/
def step (s : ComponentState) : UiEvent → ComponentState × List EngineCall
  | .mount oc => (loadFfmpeg s oc, [])
  | .fileChange file? => (handleFileChange s file?, [])
  | .convertClick oc => convertToGif s oc
  | .logNotification m => (handleLog s m, [])
  | .progressNotification p => (handleProgress s p, [])

/-- Run a whole session: fold `step` over an event list, concatenating the
engine-call traces. -/
def runEvents (s : ComponentState) : List UiEvent → ComponentState × List EngineCall
  | [] => (s, [])
  | e :: es =>
    let r1 := step s e
    let r2 := runEvents r1.1 es
    (r2.1, r1.2 ++ r2.2)

/-- Whether a trace entry is an `exec` call. -/
def EngineCall.isExec : EngineCall → Bool
  | .exec _ => true
  | _ => false

/-- Whether a trace entry is a `URL.revokeObjectURL` call. -/
def EngineCall.isRevoke : EngineCall → Bool
  | .revokeObjectURL _ => true
  | _ => false

/-- Whether the `try` block of `convertToGif` reaches the `exec` step
(everything except a throwing `writeFile`). -/
def reachesExec : ConvertOutcome → Bool
  | .writeThrows _ => false
  | _ => true

/-- A ready component state: engine loaded, an `"a.mp4"` file selected. -/
def readyState : ComponentState :=
  { ffmpegLoaded := true, videoFile := some { name := "a.mp4", bytes := [1, 2] },
    gifUrl := none, isConverting := false, progress := 0, message := none }

/-! ### Helper lemmas -/

theorem listStartsWith_append (p l t : List Char)
    (h : listStartsWith l p = true) : listStartsWith (l ++ t) p = true := by
  induction p generalizing l with
  | nil => cases l ++ t <;> rfl
  | cons c cs ih =>
    cases l with
    | nil => simp [listStartsWith] at h
    | cons b bs =>
      by_cases hb : b = c
      · subst hb
        simp [listStartsWith] at h ⊢
        exact ih bs h
      · simp [listStartsWith, hb] at h

theorem loadErr_startsWith_Error (e : String) :
    strStartsWith ("Error loading FFMPEG: " ++ e) "Error" = true := by
  unfold strStartsWith
  rw [String.data_append]
  apply listStartsWith_append
  decide

theorem loadErr_startsWith_full (e : String) :
    strStartsWith ("Error loading FFMPEG: " ++ e) "Error loading FFMPEG:"
      = true := by
  unfold strStartsWith
  rw [String.data_append]
  apply listStartsWith_append
  decide

theorem convErr_not_startsWith_Error (e : String) :
    strStartsWith ("Conversion error: " ++ e) "Error" = false := by
  unfold strStartsWith
  rw [String.data_append]
  have h1 : "Conversion error: ".data = 'C' :: "onversion error: ".data := rfl
  have h2 : "Error".data = 'E' :: "rror".data := rfl
  rw [h1, h2, List.cons_append]
  simp [listStartsWith]

theorem splitDot_no_dot (l : List Char) (h : '.' ∉ l) : splitDot l = [l] := by
  induction l with
  | nil => rfl
  | cons c cs ih =>
    simp at h
    obtain ⟨hc, hcs⟩ := h
    rw [splitDot, ih hcs]
    simp [Ne.symm hc]

theorem convert_no_revoke (s : ComponentState) (oc : ConvertOutcome) :
    (convertToGif s oc).2.countP EngineCall.isRevoke = 0 := by
  rcases s with ⟨fl, vf, gu, ic, pr, ms⟩
  cases fl <;> cases vf <;> cases oc <;>
    simp [convertToGif, EngineCall.isRevoke]

theorem step_no_revoke (s : ComponentState) (e : UiEvent) :
    (step s e).2.countP EngineCall.isRevoke = 0 := by
  cases e <;> simp [step, convert_no_revoke]

theorem runEvents_no_revoke (es : List UiEvent) (s : ComponentState) :
    (runEvents s es).2.countP EngineCall.isRevoke = 0 := by
  induction es generalizing s with
  | nil => rfl
  | cons e es ih =>
    simp [runEvents, List.countP_append, step_no_revoke, ih]

theorem loadCalls_sum_eq_countP (l : List UiEvent) :
    (l.map loadFfmpegCalls).sum = l.countP UiEvent.isMount := by
  induction l with
  | nil => rfl
  | cons e l ih =>
    cases e <;>
      simp [loadFfmpegCalls, UiEvent.isMount, List.countP_cons, ih,
        Nat.add_comm]

/-! ### Claim theorems -/

/-- C1 counterexample: a conversion failure (here `exec` throwing with text
`"boom"` in a loaded state with a file selected) sets the message to
`"Conversion error: boom"`, whose `Alert` variant is `"default"`, not
`"destructive"`; moreover the status banner (rendered only while
`ffmpegLoaded` is false) is not rendered at all in the resulting state.
So it is not the case that every thrown error surfaced to the user gets
the destructive style. -/
theorem C1_counterexample :
    (convertToGif readyState (ConvertOutcome.execThrows "boom")).1.message
      = some "Conversion error: boom"
    ∧ alertVariant "Conversion error: boom" ≠ "destructive"
    ∧ alertVariant "Conversion error: boom" = "default"
    ∧ statusBanner (convertToGif readyState (ConvertOutcome.execThrows "boom")).1
      = none := by
  refine ⟨rfl, by decide, rfl, rfl⟩

/-- C1 (amended): the Alert's variant is `"destructive"` exactly when the
message starts with `"Error"`; an engine-load failure message starts with
`"Error loading FFMPEG:"` and therefore gets the destructive variant,
while a conversion failure sets a message starting with
`"Conversion error:"` and therefore gets the `"default"` variant. -/
theorem C1_alert_variant (m err : String) :
    (alertVariant m = "destructive" ↔ strStartsWith m "Error" = true)
    ∧ alertVariant ("Error loading FFMPEG: " ++ err) = "destructive"
    ∧ alertVariant ("Conversion error: " ++ err) = "default" := by
  refine ⟨?_, ?_, ?_⟩
  · unfold alertVariant
    cases h : strStartsWith m "Error" <;> simp [h]
  · simp [alertVariant, loadErr_startsWith_Error]
  · simp [alertVariant, convErr_not_startsWith_Error]

/-- C2: when any step of a conversion attempt throws (write, exec, or read),
the single catch-all path runs: `gifUrl` ends up `none`, `isConverting`
ends up `false`, and the message becomes `"Conversion error: " ++ err`,
which contains the caught error's description `err`. -/
theorem C2_catch_resets (s : ComponentState) (f : JsFile) (oc : ConvertOutcome)
    (err : String) (hl : s.ffmpegLoaded = true) (hf : s.videoFile = some f)
    (he : oc.errDesc? = some err) :
    (convertToGif s oc).1.gifUrl = none
    ∧ (convertToGif s oc).1.isConverting = false
    ∧ (convertToGif s oc).1.message = some ("Conversion error: " ++ err) := by
  cases oc <;> simp [ConvertOutcome.errDesc?] at he <;>
    simp [convertToGif, hl, hf, he]

/-- C2 witness: at the ready state with a throwing `writeFile`. -/
theorem C2_catch_resets_witness :
    (convertToGif readyState (ConvertOutcome.writeThrows "boom")).1.gifUrl = none
    ∧ (convertToGif readyState (ConvertOutcome.writeThrows "boom")).1.isConverting
      = false
    ∧ (convertToGif readyState (ConvertOutcome.writeThrows "boom")).1.message
      = some ("Conversion error: " ++ "boom") :=
  C2_catch_resets readyState { name := "a.mp4", bytes := [1, 2] }
    (ConvertOutcome.writeThrows "boom") "boom" rfl rfl rfl

/-- C3: every conversion attempt that reaches the exec step performs exactly
one `exec` call, with the fixed argument list
`["-i", inputFileName, "-vf", "fps=15,scale=480:-1:flags=lanczos",
"output.gif"]`. -/
theorem C3_exec_once (s : ComponentState) (f : JsFile) (oc : ConvertOutcome)
    (hl : s.ffmpegLoaded = true) (hf : s.videoFile = some f)
    (hr : reachesExec oc = true) :
    (convertToGif s oc).2.filter EngineCall.isExec
      = [EngineCall.exec ["-i", inputFileNameOf f.name, "-vf",
          "fps=15,scale=480:-1:flags=lanczos", "output.gif"]] := by
  cases oc <;> simp [reachesExec] at hr <;>
    simp [convertToGif, hl, hf, EngineCall.isExec]

/-- C3 witness: a successful attempt at the ready state. -/
theorem C3_exec_once_witness :
    (convertToGif readyState (ConvertOutcome.success [7])).2.filter
        EngineCall.isExec
      = [EngineCall.exec ["-i", inputFileNameOf "a.mp4", "-vf",
          "fps=15,scale=480:-1:flags=lanczos", "output.gif"]] :=
  C3_exec_once readyState { name := "a.mp4", bytes := [1, 2] }
    (ConvertOutcome.success [7]) rfl rfl rfl

/-- C4: every conversion attempt that passes the guards first writes the
file's bytes under `"input." ++` the last `"."`-separated segment of the
original name; when the name contains no `"."`, that is
`"input." ++` the whole name. -/
theorem C4_write_input_name (s : ComponentState) (f : JsFile)
    (oc : ConvertOutcome) (hl : s.ffmpegLoaded = true)
    (hf : s.videoFile = some f) :
    (convertToGif s oc).2.head?
      = some (EngineCall.writeFile (inputFileNameOf f.name) f.bytes)
    ∧ inputFileNameOf f.name = "input." ++ jsSplitPop f.name
    ∧ ('.' ∉ f.name.data → inputFileNameOf f.name = "input." ++ f.name) := by
  refine ⟨?_, rfl, ?_⟩
  · cases oc <;> simp [convertToGif, hl, hf]
  · intro hnd
    unfold inputFileNameOf jsSplitPop
    rw [splitDot_no_dot _ hnd]
    rfl

/-- C4 witness: at the ready state; the selected name `"a.mp4"` yields
`"input.mp4"`, and a dot-free name is covered by the last conjunct of
the theorem applied to a `"noext"` file. -/
theorem C4_write_input_name_witness :
    (convertToGif
        { readyState with videoFile := some { name := "noext", bytes := [3] } }
        (ConvertOutcome.success [7])).2.head?
      = some (EngineCall.writeFile (inputFileNameOf "noext") [3])
    ∧ inputFileNameOf "noext" = "input." ++ "noext" := by
  refine ⟨(C4_write_input_name _ { name := "noext", bytes := [3] }
      (ConvertOutcome.success [7]) rfl rfl).1, ?_⟩
  exact (C4_write_input_name
      { readyState with videoFile := some { name := "noext", bytes := [3] } }
      { name := "noext", bytes := [3] }
      (ConvertOutcome.success [7]) rfl rfl).2.2 (by decide)

/-- C5: a failing engine bootstrap is terminal for the session: after
`loadFfmpeg` with a throwing `ffmpeg.load`, `ffmpegLoaded` is `false`
and the message is `"Error loading FFMPEG: " ++ err`, which starts with
`"Error loading FFMPEG:"`; and in any session whose event list contains
exactly one mount (React runs the empty-dependency effect once, on
first display), `loadFfmpeg` is invoked exactly once in total — no
other event ever invokes it, so no retry occurs. -/
theorem C5_load_failure_terminal (s : ComponentState) (err : String)
    (es : List UiEvent) (hone : es.countP UiEvent.isMount = 1) :
    (loadFfmpeg s (LoadOutcome.failure err)).ffmpegLoaded = false
    ∧ (loadFfmpeg s (LoadOutcome.failure err)).message
      = some ("Error loading FFMPEG: " ++ err)
    ∧ strStartsWith ("Error loading FFMPEG: " ++ err) "Error loading FFMPEG:"
      = true
    ∧ (es.map loadFfmpegCalls).sum = 1 := by
  refine ⟨rfl, rfl, loadErr_startsWith_full err, ?_⟩
  rw [loadCalls_sum_eq_countP, hone]

/-- C5 witness: a session consisting of one mount whose bootstrap throws. -/
theorem C5_load_failure_terminal_witness :
    (loadFfmpeg initialState (LoadOutcome.failure "net down")).ffmpegLoaded
      = false
    ∧ (loadFfmpeg initialState (LoadOutcome.failure "net down")).message
      = some ("Error loading FFMPEG: " ++ "net down")
    ∧ strStartsWith ("Error loading FFMPEG: " ++ "net down")
        "Error loading FFMPEG:" = true
    ∧ (([UiEvent.mount (LoadOutcome.failure "net down")].map
        loadFfmpegCalls)).sum = 1 :=
  C5_load_failure_terminal initialState "net down"
    [UiEvent.mount (LoadOutcome.failure "net down")] rfl

/-- C6: on a successful attempt the trace reads `"output.gif"` back and
creates an object URL for a `Blob` of type `"image/gif"` holding those
bytes, and that blob reference is stored in `gifUrl`; and in every
session whatsoever (any event list from any state) the number of
`URL.revokeObjectURL` calls in the trace is zero. -/
theorem C6_output_url_never_revoked (s : ComponentState) (f : JsFile)
    (out : List Nat) (hl : s.ffmpegLoaded = true) (hf : s.videoFile = some f) :
    ((convertToGif s (ConvertOutcome.success out)).1.gifUrl
      = some { data := out, type := "image/gif" }
    ∧ EngineCall.readFile "output.gif"
      ∈ (convertToGif s (ConvertOutcome.success out)).2
    ∧ EngineCall.createObjectURL { data := out, type := "image/gif" }
      ∈ (convertToGif s (ConvertOutcome.success out)).2)
    ∧ ∀ (s0 : ComponentState) (es : List UiEvent),
        (runEvents s0 es).2.countP EngineCall.isRevoke = 0 := by
  refine ⟨⟨?_, ?_, ?_⟩, fun s0 es => runEvents_no_revoke es s0⟩ <;>
    simp [convertToGif, hl, hf]

/-- C6 witness: a successful attempt at the ready state, and a concrete
session with a mount, a file selection, and a conversion. -/
theorem C6_output_url_never_revoked_witness :
    (convertToGif readyState (ConvertOutcome.success [9, 9])).1.gifUrl
      = some { data := [9, 9], type := "image/gif" }
    ∧ (runEvents initialState
        [UiEvent.mount LoadOutcome.success,
         UiEvent.fileChange (some { name := "a.mp4", bytes := [1, 2] }),
         UiEvent.convertClick (ConvertOutcome.success [9, 9])]).2.countP
        EngineCall.isRevoke = 0 :=
  ⟨(C6_output_url_never_revoked readyState { name := "a.mp4", bytes := [1, 2] }
      [9, 9] rfl rfl).1.1,
   (C6_output_url_never_revoked readyState { name := "a.mp4", bytes := [1, 2] }
      [9, 9] rfl rfl).2 initialState
      [UiEvent.mount LoadOutcome.success,
       UiEvent.fileChange (some { name := "a.mp4", bytes := [1, 2] }),
       UiEvent.convertClick (ConvertOutcome.success [9, 9])]⟩

/-- C7: the "Convert to GIF" button is rendered and enabled exactly when the
engine is loaded, a video file is selected, and no conversion is in
progress; with no file selected it is not rendered at all. -/
theorem C7_convert_button (s : ComponentState) :
    ((convertButtonRendered s = true ∧ convertButtonDisabled s = false)
      ↔ (s.ffmpegLoaded = true ∧ s.videoFile ≠ none ∧ s.isConverting = false))
    ∧ (s.videoFile = none → convertButtonRendered s = false) := by
  rcases s with ⟨fl, vf, gu, ic, pr, ms⟩
  cases fl <;> cases vf <;> cases ic <;>
    simp [convertButtonRendered, convertButtonDisabled]

/-- C7 witness: in the initial state no file is selected, so the button is
not rendered. -/
theorem C7_convert_button_witness :
    convertButtonRendered initialState = false :=
  (C7_convert_button initialState).2 rfl

/-- C8: every log notification is mirrored into the message state, every
fractional-progress notification `p` is mirrored into the progress
state as `Math.round(p * 100)`, and for `p ∈ [0, 1]` the stored value
lies in `[0, 100]`. -/
theorem C8_notifications (s : ComponentState) (m : String) (p : ℚ) :
    (handleLog s m).message = some m
    ∧ (handleProgress s p).progress = jsRound (p * 100)
    ∧ (0 ≤ p → p ≤ 1 →
        0 ≤ (handleProgress s p).progress
        ∧ (handleProgress s p).progress ≤ 100) := by
  refine ⟨rfl, rfl, fun h0 h1 => ?_⟩
  show 0 ≤ jsRound (p * 100) ∧ jsRound (p * 100) ≤ 100
  unfold jsRound
  constructor
  · apply Int.le_floor.mpr
    push_cast
    nlinarith
  · have h : ⌊p * 100 + 1 / 2⌋ < 101 := by
      apply Int.floor_lt.mpr
      push_cast
      nlinarith
    omega

/-- C8 witness: a log notification `"frame 1"` and a progress notification
at `p = 1/2`. -/
theorem C8_notifications_witness :
    (handleLog initialState "frame 1").message = some "frame 1"
    ∧ (handleProgress initialState (1 / 2 : ℚ)).progress
      = jsRound ((1 / 2 : ℚ) * 100)
    ∧ 0 ≤ (handleProgress initialState (1 / 2 : ℚ)).progress
    ∧ (handleProgress initialState (1 / 2 : ℚ)).progress ≤ 100 :=
  ⟨(C8_notifications initialState "frame 1" (1 / 2)).1,
   (C8_notifications initialState "frame 1" (1 / 2)).2.1,
   (C8_notifications initialState "frame 1" (1 / 2)).2.2
     (by norm_num) (by norm_num)⟩

/-- C9: every conversion attempt that passes the guards ends, via the
`finally` block, with `isConverting = false` and `progress = 100`,
whatever the outcome — including every failing outcome. -/
theorem C9_finally_state (s : ComponentState) (f : JsFile)
    (oc : ConvertOutcome) (hl : s.ffmpegLoaded = true)
    (hf : s.videoFile = some f) :
    (convertToGif s oc).1.isConverting = false
    ∧ (convertToGif s oc).1.progress = 100 := by
  cases oc <;> simp [convertToGif, hl, hf]

/-- C9 witness: a failing attempt (throwing `readFile`) at the ready state
still ends with `isConverting = false` and `progress = 100`. -/
theorem C9_finally_state_witness :
    (convertToGif readyState (ConvertOutcome.readThrows "oops")).1.isConverting
      = false
    ∧ (convertToGif readyState (ConvertOutcome.readThrows "oops")).1.progress
      = 100 :=
  C9_finally_state readyState { name := "a.mp4", bytes := [1, 2] }
    (ConvertOutcome.readThrows "oops") rfl rfl

/-- C10: when a guard fails (engine not loaded, or no file selected),
`convertToGif` returns early: it makes no engine call at all and leaves
every piece of state unchanged except the message, which becomes the
corresponding guard text. -/
theorem C10_guard_early_return (s : ComponentState) (oc : ConvertOutcome)
    (h : s.ffmpegLoaded = false ∨ s.videoFile = none) :
    (convertToGif s oc).2 = []
    ∧ (convertToGif s oc).1.gifUrl = s.gifUrl
    ∧ (convertToGif s oc).1.progress = s.progress
    ∧ (convertToGif s oc).1.isConverting = s.isConverting
    ∧ (convertToGif s oc).1.videoFile = s.videoFile
    ∧ (convertToGif s oc).1.ffmpegLoaded = s.ffmpegLoaded
    ∧ ((convertToGif s oc).1.message
        = some "FFMPEG is not loaded yet. Please wait."
      ∨ (convertToGif s oc).1.message
        = some "Please select a video file first.") := by
  rcases h with h | h
  · simp [convertToGif, h]
  · by_cases hl : s.ffmpegLoaded = false
    · simp [convertToGif, hl]
    · simp only [Bool.not_eq_false] at hl
      simp [convertToGif, hl, h]

/-- C10 witness: calling convert in the initial state (engine not loaded). -/
theorem C10_guard_early_return_witness :
    (convertToGif initialState (ConvertOutcome.success [1])).2 = []
    ∧ (convertToGif initialState (ConvertOutcome.success [1])).1.gifUrl
      = initialState.gifUrl
    ∧ (convertToGif initialState (ConvertOutcome.success [1])).1.progress
      = initialState.progress
    ∧ (convertToGif initialState (ConvertOutcome.success [1])).1.isConverting
      = initialState.isConverting
    ∧ (convertToGif initialState (ConvertOutcome.success [1])).1.videoFile
      = initialState.videoFile
    ∧ (convertToGif initialState (ConvertOutcome.success [1])).1.ffmpegLoaded
      = initialState.ffmpegLoaded
    ∧ ((convertToGif initialState (ConvertOutcome.success [1])).1.message
        = some "FFMPEG is not loaded yet. Please wait."
      ∨ (convertToGif initialState (ConvertOutcome.success [1])).1.message
        = some "Please select a video file first.") :=
  C10_guard_early_return initialState (ConvertOutcome.success [1]) (Or.inl rfl)
